import Mathlib

/-!
Verification of the Musafir handwriting-scoring service
(`ml-service/scoring_service.py`) against its specification.

The development shallowly embeds the Python source:

* `b64decode` models `base64.b64decode` applied to a `str` argument as the
  handler does: CPython first encodes the string as ASCII (a non-ASCII
  character raises `ValueError`) and then runs the non-strict
  `binascii.a2b_base64` decoder, which silently skips characters outside
  the base64 alphabet and checks length/padding of the retained ones.
* Tensor arithmetic is embedded over `ℝ`: a logit matrix is a list of rows,
  softmax is the normalized-exponential map, embeddings are lists of reals.
* The surrounding libraries (PIL, the HuggingFace processor and model) are
  abstracted as an environment of fallible functions returning
  `Except String`, mirroring Python exceptions carrying `str(e)`.
* The request handler `score_handwriting` is the sequential pipeline of the
  Python `try:` block; the catch-all `except` clause becomes the
  `httpError 500` branch carrying the error message.
-/

namespace Musafir

/-! ## Base64 decoding (CPython `base64.b64decode` on a `str`) -/

/-- The base64 digit table: `A`-`Z` ↦ 0-25, `a`-`z` ↦ 26-51, `0`-`9` ↦ 52-61,
`+` ↦ 62, `/` ↦ 63; every other character is not a data character. -/
def b64Table (c : Char) : Option Nat :=
  if 'A' ≤ c ∧ c ≤ 'Z' then some (c.toNat - 65)
  else if 'a' ≤ c ∧ c ≤ 'z' then some (c.toNat - 97 + 26)
  else if '0' ≤ c ∧ c ≤ '9' then some (c.toNat - 48 + 52)
  else if c = '+' then some 62
  else if c = '/' then some 63
  else none

/-- State of the non-strict `binascii.a2b_base64` scanner: whether decoding
stopped at a complete padding group, the position inside the current 4-char
group, the pending bits, the count of consecutive `=` seen in the current
group, and the bytes emitted so far. -/
structure A2bState where
  done : Bool
  quadPos : Nat
  leftchar : Nat
  pads : Nat
  out : List Nat
deriving Repr, DecidableEq

/-- One step of the non-strict `binascii.a2b_base64` scanner (CPython
`Modules/binascii.c`, `strict_mode=0`): `=` counts padding and ends the data
once a group of four is completed by padding; characters outside the
alphabet are skipped; a data character emits the bytes of the running
group. -/
def a2bStep (st : A2bState) (c : Char) : A2bState :=
  if st.done then st
  else if c = '=' then
    if 2 ≤ st.quadPos ∧ 4 ≤ st.quadPos + (st.pads + 1) then { st with done := true }
    else if 2 ≤ st.quadPos then { st with pads := st.pads + 1 }
    else st
  else
    match b64Table c with
    | none => st
    | some v =>
      match st.quadPos with
      | 0 => { st with quadPos := 1, leftchar := v, pads := 0 }
      | 1 => { st with quadPos := 2, leftchar := v % 16, pads := 0, out := st.out ++ [st.leftchar * 4 + v / 16] }
      | 2 => { st with quadPos := 3, leftchar := v % 4, pads := 0, out := st.out ++ [st.leftchar * 16 + v / 4] }
      | _ => { st with quadPos := 0, leftchar := 0, pads := 0, out := st.out ++ [st.leftchar * 64 + v] }

/-- Non-strict `binascii.a2b_base64` over a character list: fold the scanner
and then apply CPython's end-of-input check (a trailing group of one data
character, or of two/three data characters without completing padding, is an
error). -/
def a2b_base64 (l : List Char) : Except String (List Nat) :=
  let st := l.foldl a2bStep ⟨false, 0, 0, 0, []⟩
  if st.done then .ok st.out
  else if st.quadPos = 0 then .ok st.out
  else if st.quadPos = 1 then
    .error ("Invalid base64-encoded string: number of data characters (" ++
      toString (st.out.length / 3 * 4 + 1) ++
      ") cannot be 1 more than a multiple of 4")
  else .error "Incorrect padding"

/-- Model of `base64.b64decode` applied to a `str`: `_bytes_from_decode_data` encodes
the string as ASCII (raising `ValueError` on a non-ASCII character) and the
bytes are handed to the non-strict `a2b_base64`. -/
def b64decode (s : String) : Except String (List Nat) :=
  if s.data.all (fun c => decide (c.toNat < 128)) then a2b_base64 s.data
  else .error "string argument should contain only ASCII characters"

/-- Characters that influence the decoder: base64 data characters and the
padding character `=`. -/
def b64Kept (c : Char) : Bool :=
  (b64Table c).isSome || c = '='

/-- Keep only the characters of `s` that influence the decoder. -/
def filterKept (s : String) : String :=
  ⟨s.data.filter b64Kept⟩

/-! ## Tensor arithmetic over `ℝ` -/

/-- Model of `tensor.softmax(dim=1)` applied to one row: normalized exponentials. -/
noncomputable def softmaxList (l : List ℝ) : List ℝ :=
  l.map (fun x => Real.exp x / (l.map Real.exp).sum)

/-- Inner product of two vectors given as lists. -/
noncomputable def dotList (a b : List ℝ) : ℝ :=
  ((a.zip b).map (fun p => p.1 * p.2)).sum

/-- Euclidean norm of a vector, `t.norm(p=2, dim=-1)` for one row. -/
noncomputable def l2norm (v : List ℝ) : ℝ :=
  Real.sqrt ((v.map (fun x => x ^ 2)).sum)

/-- Divide a row by its Euclidean norm,
`t / t.norm(p=2, dim=-1, keepdim=True)` for one row. -/
noncomputable def l2normalizeRow (v : List ℝ) : List ℝ :=
  v.map (fun x => x / l2norm v)

/-- Row-wise Euclidean normalization of a matrix. -/
noncomputable def l2normRows (m : List (List ℝ)) : List (List ℝ) :=
  m.map l2normalizeRow

/-- Matrix product `a @ b.T` for matrices given as lists of rows. -/
noncomputable def matmulT (a b : List (List ℝ)) : List (List ℝ) :=
  a.map (fun ar => b.map (fun br => dotList ar br))

/-- Model of `tensor.item()`: it succeeds exactly on a 1×1 matrix, any other shape
raises (torch: a tensor with more than one element cannot be converted to a
scalar). -/
def item (m : List (List ℝ)) : Except String ℝ :=
  match m with
  | [[x]] => .ok x
  | _ => .error "only one element tensors can be converted to Python scalars"

/-! ## Python `round(x, 2)` in exact arithmetic -/

/-- Round to the nearest integer, ties to the even integer (the rounding
used by Python's built-in `round`). -/
noncomputable def roundHalfEven (x : ℝ) : ℤ :=
  if Int.fract x < 1 / 2 then ⌊x⌋
  else if 1 / 2 < Int.fract x then ⌊x⌋ + 1
  else if Even ⌊x⌋ then ⌊x⌋ else ⌊x⌋ + 1

/-- Model of Python `round(x, 2)`: round to the nearest multiple of `1/100`, modelled in
exact real arithmetic. -/
noncomputable def round2 (x : ℝ) : ℝ :=
  (roundHalfEven (x * 100) : ℝ) / 100

/-! ## The model environment and the scoring pipeline -/

/-- The fields of the model output used by the handler: `logits_per_image`
(one row per image, one column per prompt), `image_embeds` and
`text_embeds` (one row per image resp. per prompt). -/
structure ModelOutputs where
  logits_per_image : List (List ℝ)
  image_embeds : List (List ℝ)
  text_embeds : List (List ℝ)

/-- The process-wide state and external libraries the handler consults:
the active model identifier `MODEL_ID`, Python's float formatting used by
the f-string, `PIL.Image.open` over decoded bytes, the paired processor
and the model forward pass.  Each fallible call returns `Except String`,
the error being `str(e)` of the raised exception. -/
structure ModelEnv (Img Tens : Type) where
  modelId : String
  fmtFloat : ℝ → String
  imageOpen : List Nat → Except String Img
  process : List String → Img → Except String Tens
  forward : Tens → Except String ModelOutputs

/-- The request body: `{ image_base64, target_text }`. -/
structure ScoringRequest where
  image_base64 : String
  target_text : String

/-- What the endpoint returns: a success body `{score, feedback}` or an
`HTTPException(status_code, detail)`. -/
inductive HandlerResult where
  | ok (score : ℝ) (feedback : String)
  | httpError (status : Nat) (detail : String)

/-- The prompt list built by the handler:
`[target_text, "خربشة", "فارغ"]`. -/
def promptSet (target_text : String) : List String :=
  [target_text, "خربشة", "فارغ"]

/-- Lines 62-82 of the handler: softmax the logit matrix along the prompt
dimension, read entry `[0][0]` and scale by 100; if the prompt list has
exactly one element, replace the score by the scaled inner product of the
Euclidean-normalized image and text embeddings. -/
noncomputable def computeScore (text_prompts : List String) (o : ModelOutputs) : Except String ℝ :=
  match (o.logits_per_image.map softmaxList).get? 0 with
  | none => .error "index 0 is out of bounds for dimension 0 with size 0"
  | some row =>
    match row.get? 0 with
    | none => .error "index 0 is out of bounds for dimension 0 with size 0"
    | some p =>
      if text_prompts.length = 1 then
        (item (matmulT (l2normRows o.image_embeds) (l2normRows o.text_embeds))).map
          (fun x => x * 100)
      else
        .ok (p * 100)

/-- The f-string
`f"Scored using <MODEL_ID>. Probability match: <round(score, 2)>%"`. -/
def feedbackString (modelId fmtScore : String) : String :=
  "Scored using " ++ (modelId ++ (". Probability match: " ++ (fmtScore ++ "%")))

/-- The body of the `try:` block: decode the base64 payload, open the
image, build the prompt list, run the processor and the model, compute the
score, and build the response pair `(round(score, 2), feedback)`.  The
first failing step aborts the pipeline with its message. -/
noncomputable def scorePipeline {Img Tens : Type} (env : ModelEnv Img Tens)
    (req : ScoringRequest) : Except String (ℝ × String) :=
  match b64decode req.image_base64 with
  | .error e => .error e
  | .ok image_data =>
    match env.imageOpen image_data with
    | .error e => .error e
    | .ok image =>
      match env.process (promptSet req.target_text) image with
      | .error e => .error e
      | .ok inputs =>
        match env.forward inputs with
        | .error e => .error e
        | .ok outputs =>
          match computeScore (promptSet req.target_text) outputs with
          | .error e => .error e
          | .ok score =>
            .ok (round2 score, feedbackString env.modelId (env.fmtFloat (round2 score)))

/-- The `/score` handler: the pipeline with its catch-all `except` clause
turning any exception into `HTTPException(status_code=500, detail=str(e))`. -/
noncomputable def score_handwriting {Img Tens : Type} (env : ModelEnv Img Tens)
    (req : ScoringRequest) : HandlerResult :=
  match scorePipeline env req with
  | .ok (s, f) => .ok s f
  | .error e => .httpError 500 e

/-! ## Module-level model loading -/

/-- The identifier of the specialized model tried first. -/
def primaryModelId : String := "Arabic-Clip/araclip"

/-- The identifier of the generic fallback model. -/
def fallbackModelId : String := "openai/clip-vit-base-patch32"

/-- The model hub as seen by the loading code: the four `from_pretrained`
calls the module may make, each fallible. -/
structure Hub (P M : Type) where
  autoProcessor : String → Except String P
  autoModel : String → Except String M
  clipProcessor : String → Except String P
  clipModel : String → Except String M

/-- The body of the module-level `try:` block: load processor and model by
the specialized identifier; either call failing aborts the attempt. -/
def tryPrimary {P M : Type} (hub : Hub P M) : Except String (P × M) :=
  match hub.autoProcessor primaryModelId with
  | .error e => .error e
  | .ok p =>
    match hub.autoModel primaryModelId with
    | .error e => .error e
    | .ok m => .ok (p, m)

/-- The body of the module-level `except` clause: load the generic CLIP
processor and model; a failure here propagates out of the module. -/
def tryFallback {P M : Type} (hub : Hub P M) : Except String (P × M) :=
  match hub.clipProcessor fallbackModelId with
  | .error e => .error e
  | .ok p =>
    match hub.clipModel fallbackModelId with
    | .error e => .error e
    | .ok m => .ok (p, m)

/-- Module initialization: try the specialized model, fall back to the
generic one, and record which identifier ended up in `MODEL_ID`; an error
value is an exception escaping module import, so the process never serves
a request. -/
def loadModel {P M : Type} (hub : Hub P M) : Except String (String × P × M) :=
  match tryPrimary hub with
  | .ok (p, m) => .ok (primaryModelId, p, m)
  | .error _ =>
    match tryFallback hub with
    | .ok (p, m) => .ok (fallbackModelId, p, m)
    | .error e => .error e

/-- The string `sub` occurs contiguously inside `s`. -/
def strContains (sub s : String) : Prop :=
  ∃ p q : String, s = p ++ (sub ++ q)

/-! ## Concrete fixtures used by the closed witness statements -/

/-- A model output with a single all-zero logit row for the three prompts. -/
noncomputable def okOutputs : ModelOutputs :=
  ⟨[[0, 0, 0]], [], []⟩

/-- An environment in which every external call succeeds: the specialized
model is active, images parse, and the forward pass returns `okOutputs`. -/
noncomputable def okEnv : ModelEnv Unit Unit :=
  ⟨"Arabic-Clip/araclip", fun _ => "33.33", fun _ => .ok (), fun _ _ => .ok (),
    fun _ => .ok okOutputs⟩

/-- A request whose payload is the base64 of the single byte `A`. -/
def okReq : ScoringRequest :=
  ⟨"QQ==", "أ"⟩

/-- The raw (unrounded) score the pipeline computes in `okEnv` on `okReq`. -/
noncomputable def okRawScore : ℝ :=
  Real.exp 0 / [Real.exp 0, Real.exp 0, Real.exp 0].sum * 100

/-- A request carrying the malformed payload named by the specification. -/
def invalidReq : ScoringRequest :=
  ⟨"not-valid-base64!!", "أ"⟩

/-- A request whose payload is valid base64 of the text `hello`, which is
not an image. -/
def helloReq : ScoringRequest :=
  ⟨"aGVsbG8=", "أ"⟩

/-- An environment in which `PIL.Image.open` fails on every byte string. -/
noncomputable def noImageEnv : ModelEnv Unit Unit :=
  { okEnv with imageOpen := fun _ => .error "cannot identify image file" }

/-- A model output for a single prompt: one logit, one image embedding and
one text embedding. -/
noncomputable def cosOutputs : ModelOutputs :=
  ⟨[[0]], [[1, 0]], [[0, 1]]⟩

/-- A hub on which the specialized model loads. -/
def okHub : Hub Unit Unit :=
  ⟨fun _ => .ok (), fun _ => .ok (), fun _ => .ok (), fun _ => .ok ()⟩

/-- A hub on which only the generic fallback model loads. -/
def fallbackHub : Hub Unit Unit :=
  ⟨fun _ => .error "404 Client Error", fun _ => .error "404 Client Error",
    fun _ => .ok (), fun _ => .ok ()⟩

/-- A hub on which every load fails. -/
def deadHub : Hub Unit Unit :=
  ⟨fun _ => .error "offline", fun _ => .error "offline",
    fun _ => .error "offline", fun _ => .error "offline"⟩

/-! ## Helper lemmas -/

theorem a2bStep_skip (st : A2bState) (c : Char) (h : b64Kept c = false) :
    a2bStep st c = st := by
  have h' := h
  simp only [b64Kept, Bool.or_eq_false_iff] at h'
  obtain ⟨h1, h2⟩ := h'
  have hnone : b64Table c = none := by
    cases hv : b64Table c with
    | none => rfl
    | some v => rw [hv] at h1; simp at h1
  have hne : ¬ c = '=' := by simpa using h2
  by_cases hd : st.done
  · simp [a2bStep, hd]
  · simp [a2bStep, hd, hne, hnone]

theorem foldl_a2bStep_filter (l : List Char) (st : A2bState) :
    (l.filter b64Kept).foldl a2bStep st = l.foldl a2bStep st := by
  induction l generalizing st with
  | nil => rfl
  | cons c cs ih =>
    by_cases h : b64Kept c
    · rw [List.filter_cons_of_pos h, List.foldl_cons, List.foldl_cons]
      exact ih _
    · rw [List.filter_cons_of_neg (by simpa using h), List.foldl_cons,
        a2bStep_skip st c (by simpa using h)]
      exact ih _

theorem b64decode_filterKept (s : String) (h : ∀ c ∈ s.data, c.toNat < 128) :
    b64decode s = b64decode (filterKept s) := by
  have hs : s.data.all (fun c => decide (c.toNat < 128)) = true := by
    rw [List.all_eq_true]
    intro c hc
    exact decide_eq_true (h c hc)
  have hf : (filterKept s).data.all (fun c => decide (c.toNat < 128)) = true := by
    rw [List.all_eq_true]
    intro c hc
    exact decide_eq_true (h c (List.mem_of_mem_filter hc))
  unfold b64decode
  rw [if_pos hs, if_pos hf]
  unfold a2b_base64
  rw [show (filterKept s).data = s.data.filter b64Kept from rfl, foldl_a2bStep_filter]

theorem sum_map_exp_nonneg (l : List ℝ) : 0 ≤ (l.map Real.exp).sum := by
  induction l with
  | nil => simp
  | cons x xs ih =>
    simp only [List.map_cons, List.sum_cons]
    exact add_nonneg (Real.exp_pos x).le ih

theorem softmaxList_get0 (l : List ℝ) (p : ℝ) (h : (softmaxList l).get? 0 = some p) :
    0 < p ∧ p ≤ 1 := by
  cases l with
  | nil => simp [softmaxList] at h
  | cons x xs =>
    have hp : p = Real.exp x / ((x :: xs).map Real.exp).sum := by
      simp [softmaxList] at h
      exact h.symm
    have hS : 0 < ((x :: xs).map Real.exp).sum := by
      simp only [List.map_cons, List.sum_cons]
      exact add_pos_of_pos_of_nonneg (Real.exp_pos x) (sum_map_exp_nonneg xs)
    constructor
    · rw [hp]
      exact div_pos (Real.exp_pos x) hS
    · rw [hp, div_le_one hS]
      simp only [List.map_cons, List.sum_cons]
      linarith [sum_map_exp_nonneg xs]

theorem roundHalfEven_bounds (x : ℝ) :
    x - 1 / 2 ≤ (roundHalfEven x : ℝ) ∧ (roundHalfEven x : ℝ) ≤ x + 1 / 2 := by
  have h0 : 0 ≤ Int.fract x := Int.fract_nonneg x
  have h1 : Int.fract x < 1 := Int.fract_lt_one x
  have hadd : (⌊x⌋ : ℝ) + Int.fract x = x := Int.floor_add_fract x
  unfold roundHalfEven
  split_ifs <;> constructor <;> push_cast <;> linarith

theorem round2_range (x : ℝ) (h0 : 0 < x) (h1 : x ≤ 100) :
    0 ≤ round2 x ∧ round2 x ≤ 100 ∧ ∃ n : ℤ, round2 x = (n : ℝ) / 100 := by
  obtain ⟨hl, hr⟩ := roundHalfEven_bounds (x * 100)
  have hge : (0 : ℤ) ≤ roundHalfEven (x * 100) := by
    by_contra hc
    push_neg at hc
    have hle1 : roundHalfEven (x * 100) ≤ -1 := by omega
    have : (roundHalfEven (x * 100) : ℝ) ≤ -1 := by exact_mod_cast hle1
    linarith
  have hle : roundHalfEven (x * 100) ≤ 10000 := by
    by_contra hc
    push_neg at hc
    have hge1 : (10001 : ℤ) ≤ roundHalfEven (x * 100) := by omega
    have : (10001 : ℝ) ≤ (roundHalfEven (x * 100) : ℝ) := by exact_mod_cast hge1
    linarith
  have hgeR : (0 : ℝ) ≤ (roundHalfEven (x * 100) : ℝ) := by exact_mod_cast hge
  have hleR : (roundHalfEven (x * 100) : ℝ) ≤ 10000 := by exact_mod_cast hle
  refine ⟨?_, ?_, ⟨roundHalfEven (x * 100), rfl⟩⟩
  · unfold round2
    linarith
  · unfold round2
    linarith

theorem computeScore_index0 (tp : List String) (o : ModelOutputs) (row : List ℝ) (p : ℝ)
    (hlen : tp.length ≠ 1)
    (hrow : o.logits_per_image.get? 0 = some row)
    (hp : (softmaxList row).get? 0 = some p) :
    computeScore tp o = .ok (p * 100) := by
  unfold computeScore
  rw [List.get?_map, hrow, Option.map_some']
  dsimp only
  rw [hp]
  dsimp only
  rw [if_neg hlen]

theorem computeScore_ok_bounds (tp : List String) (o : ModelOutputs) (sc : ℝ)
    (hlen : tp.length ≠ 1)
    (h : computeScore tp o = .ok sc) : 0 < sc ∧ sc ≤ 100 := by
  unfold computeScore at h
  rw [List.get?_map] at h
  cases hg : o.logits_per_image.get? 0 with
  | none => rw [hg] at h; simp at h
  | some lrow =>
    rw [hg, Option.map_some'] at h
    dsimp only at h
    cases hp : (softmaxList lrow).get? 0 with
    | none => rw [hp] at h; simp at h
    | some p =>
      rw [hp] at h
      dsimp only at h
      rw [if_neg hlen] at h
      have hsc : p * 100 = sc := by
        simpa using h
      obtain ⟨hp0, hp1⟩ := softmaxList_get0 lrow p hp
      constructor
      · linarith
      · linarith

theorem okEnv_run : score_handwriting okEnv okReq =
    .ok (round2 okRawScore) (feedbackString "Arabic-Clip/araclip" "33.33") := rfl

theorem computeScore_promptSet_logits (t : String) (o : ModelOutputs) (a b c : ℝ)
    (h : o.logits_per_image = [[a, b, c]]) :
    computeScore (promptSet t) o =
      .ok (Real.exp a / (Real.exp a + Real.exp b + Real.exp c) * 100) := by
  have hrow : o.logits_per_image.get? 0 = some [a, b, c] := by
    rw [h]
    rfl
  have hp0 : (softmaxList [a, b, c]).get? 0 =
      some (Real.exp a / (([a, b, c] : List ℝ).map Real.exp).sum) := rfl
  have hsum : (([a, b, c] : List ℝ).map Real.exp).sum =
      Real.exp a + Real.exp b + Real.exp c := by
    simp only [List.map_cons, List.map_nil, List.sum_cons, List.sum_nil]
    ring
  rw [hsum] at hp0
  exact computeScore_index0 _ o [a, b, c] _ (by simp [promptSet]) hrow hp0

theorem score_handwriting_ok_inv {Img Tens : Type} (env : ModelEnv Img Tens)
    (req : ScoringRequest) (s : ℝ) (f : String)
    (h : score_handwriting env req = .ok s f) :
    scorePipeline env req = .ok (s, f) := by
  unfold score_handwriting at h
  cases hp : scorePipeline env req with
  | error e => rw [hp] at h; simp at h
  | ok pr =>
    rw [hp] at h
    cases pr with
    | mk s' f' =>
      dsimp only at h
      injection h with hs hf
      subst hs
      subst hf
      rfl

theorem scorePipeline_ok_inv {Img Tens : Type} (env : ModelEnv Img Tens)
    (req : ScoringRequest) (s : ℝ) (f : String)
    (h : scorePipeline env req = .ok (s, f)) :
    ∃ (o : ModelOutputs) (sc : ℝ),
      computeScore (promptSet req.target_text) o = .ok sc ∧
      s = round2 sc ∧ f = feedbackString env.modelId (env.fmtFloat (round2 sc)) := by
  unfold scorePipeline at h
  cases hb : b64decode req.image_base64 with
  | error e => rw [hb] at h; simp at h
  | ok bs =>
    rw [hb] at h
    dsimp only at h
    cases hi : env.imageOpen bs with
    | error e => rw [hi] at h; simp at h
    | ok img =>
      rw [hi] at h
      dsimp only at h
      cases hpr : env.process (promptSet req.target_text) img with
      | error e => rw [hpr] at h; simp at h
      | ok inputs =>
        rw [hpr] at h
        dsimp only at h
        cases hfw : env.forward inputs with
        | error e => rw [hfw] at h; simp at h
        | ok o =>
          rw [hfw] at h
          dsimp only at h
          cases hcs : computeScore (promptSet req.target_text) o with
          | error e => rw [hcs] at h; simp at h
          | ok sc =>
            rw [hcs] at h
            dsimp only at h
            injection h with hpair
            injection hpair with hs hf
            subst hs
            subst hf
            exact ⟨o, sc, hcs, rfl, rfl⟩

/-! ## Claims -/

/-- Claim C1: for every valid scoring request served through the fixed
three-prompt construction (decode, image open, preprocessing and forward
pass all succeed and the model reports one logit row with three entries),
the returned score is the softmax of the logit row at prompt index 0,
multiplied by 100 and rounded to 2 decimal places. -/
theorem softmax_score_of_three_prompts {Img Tens : Type} (env : ModelEnv Img Tens)
    (req : ScoringRequest) (bs : List Nat) (img : Img) (inputs : Tens)
    (o : ModelOutputs) (a b c : ℝ)
    (h1 : b64decode req.image_base64 = .ok bs)
    (h2 : env.imageOpen bs = .ok img)
    (h3 : env.process (promptSet req.target_text) img = .ok inputs)
    (h4 : env.forward inputs = .ok o)
    (h5 : o.logits_per_image = [[a, b, c]]) :
    score_handwriting env req =
      .ok (round2 (Real.exp a / (Real.exp a + Real.exp b + Real.exp c) * 100))
        (feedbackString env.modelId
          (env.fmtFloat (round2 (Real.exp a / (Real.exp a + Real.exp b + Real.exp c) * 100)))) := by
  have hcs := computeScore_promptSet_logits req.target_text o a b c h5
  unfold score_handwriting scorePipeline
  rw [h1]
  dsimp only
  rw [h2]
  dsimp only
  rw [h3]
  dsimp only
  rw [h4]
  dsimp only
  rw [hcs]

theorem softmax_score_of_three_prompts_witness :
    score_handwriting okEnv okReq =
      .ok (round2 (Real.exp 0 / (Real.exp 0 + Real.exp 0 + Real.exp 0) * 100))
        (feedbackString okEnv.modelId
          (okEnv.fmtFloat (round2 (Real.exp 0 / (Real.exp 0 + Real.exp 0 + Real.exp 0) * 100)))) :=
  softmax_score_of_three_prompts okEnv okReq [65] () () okOutputs 0 0 0 rfl rfl rfl rfl rfl

/-- Claim C2: every failure of decode, image parsing, preprocessing,
inference or score extraction is caught and surfaced as an HTTP 500
response whose detail is exactly the message of the failing step; in
particular the payload "not-valid-base64!!" produces a 500 response with
the base64 decoder's message. -/
theorem errors_surface_as_http500 {Img Tens : Type} (env : ModelEnv Img Tens)
    (req : ScoringRequest) :
    (∀ e, b64decode req.image_base64 = .error e →
      score_handwriting env req = .httpError 500 e)
  ∧ (∀ bs e, b64decode req.image_base64 = .ok bs → env.imageOpen bs = .error e →
      score_handwriting env req = .httpError 500 e)
  ∧ (∀ bs img e, b64decode req.image_base64 = .ok bs → env.imageOpen bs = .ok img →
      env.process (promptSet req.target_text) img = .error e →
      score_handwriting env req = .httpError 500 e)
  ∧ (∀ bs img inputs e, b64decode req.image_base64 = .ok bs → env.imageOpen bs = .ok img →
      env.process (promptSet req.target_text) img = .ok inputs →
      env.forward inputs = .error e →
      score_handwriting env req = .httpError 500 e)
  ∧ (∀ bs img inputs o e, b64decode req.image_base64 = .ok bs → env.imageOpen bs = .ok img →
      env.process (promptSet req.target_text) img = .ok inputs →
      env.forward inputs = .ok o →
      computeScore (promptSet req.target_text) o = .error e →
      score_handwriting env req = .httpError 500 e)
  ∧ (req.image_base64 = "not-valid-base64!!" →
      score_handwriting env req = .httpError 500 "Incorrect padding") := by
  refine ⟨?_, ?_, ?_, ?_, ?_, ?_⟩
  · intro e h1
    unfold score_handwriting scorePipeline
    rw [h1]
  · intro bs e h1 h2
    unfold score_handwriting scorePipeline
    rw [h1]
    dsimp only
    rw [h2]
  · intro bs img e h1 h2 h3
    unfold score_handwriting scorePipeline
    rw [h1]
    dsimp only
    rw [h2]
    dsimp only
    rw [h3]
  · intro bs img inputs e h1 h2 h3 h4
    unfold score_handwriting scorePipeline
    rw [h1]
    dsimp only
    rw [h2]
    dsimp only
    rw [h3]
    dsimp only
    rw [h4]
  · intro bs img inputs o e h1 h2 h3 h4 h5
    unfold score_handwriting scorePipeline
    rw [h1]
    dsimp only
    rw [h2]
    dsimp only
    rw [h3]
    dsimp only
    rw [h4]
    dsimp only
    rw [h5]
  · intro hreq
    have h1 : b64decode req.image_base64 = .error "Incorrect padding" := by
      rw [hreq]
      rfl
    unfold score_handwriting scorePipeline
    rw [h1]

theorem errors_surface_as_http500_witness :
    score_handwriting okEnv invalidReq = .httpError 500 "Incorrect padding"
  ∧ score_handwriting noImageEnv helloReq =
      .httpError 500 "cannot identify image file" :=
  ⟨(errors_surface_as_http500 okEnv invalidReq).2.2.2.2.2 rfl,
   (errors_surface_as_http500 noImageEnv helloReq).2.1 [104, 101, 108, 108, 111]
     "cannot identify image file" rfl rfl⟩

/-- Claim C3: whenever the handler returns a success response, its score
lies in the closed interval [0, 100] and is an integer multiple of 1/100
(two decimal places). -/
theorem score_in_range_two_decimals {Img Tens : Type} (env : ModelEnv Img Tens)
    (req : ScoringRequest) (s : ℝ) (f : String)
    (h : score_handwriting env req = .ok s f) :
    0 ≤ s ∧ s ≤ 100 ∧ ∃ n : ℤ, s = (n : ℝ) / 100 := by
  obtain ⟨o, sc, hcs, hs, hf⟩ :=
    scorePipeline_ok_inv env req s f (score_handwriting_ok_inv env req s f h)
  obtain ⟨hsc0, hsc1⟩ :=
    computeScore_ok_bounds (promptSet req.target_text) o sc (by simp [promptSet]) hcs
  obtain ⟨ha, hb, hn⟩ := round2_range sc hsc0 hsc1
  subst hs
  exact ⟨ha, hb, hn⟩

theorem score_in_range_two_decimals_witness :
    0 ≤ round2 okRawScore ∧ round2 okRawScore ≤ 100 ∧
      ∃ n : ℤ, round2 okRawScore = (n : ℝ) / 100 :=
  score_in_range_two_decimals okEnv okReq (round2 okRawScore)
    (feedbackString "Arabic-Clip/araclip" "33.33") okEnv_run

/-- Claim C4: the prompt list passed to the model is exactly the ordered
three-element list [target_text, "خربشة", "فارغ"]: replacing the
preprocessing function by any function that agrees with it on that one
prompt list leaves the handler's behavior unchanged, the constructed
prompt list is that list, and index 0 of it is the target text. -/
theorem prompt_set_three_ordered {Img Tens : Type} (env : ModelEnv Img Tens)
    (proc : List String → Img → Except String Tens) (req : ScoringRequest)
    (h : ∀ img, proc [req.target_text, "خربشة", "فارغ"] img =
      env.process [req.target_text, "خربشة", "فارغ"] img) :
    score_handwriting { env with process := proc } req = score_handwriting env req
  ∧ promptSet req.target_text = [req.target_text, "خربشة", "فارغ"]
  ∧ (promptSet req.target_text).get? 0 = some req.target_text := by
  refine ⟨?_, rfl, rfl⟩
  have h' : ∀ img, proc (promptSet req.target_text) img =
      env.process (promptSet req.target_text) img := h
  unfold score_handwriting scorePipeline
  dsimp only
  cases hb : b64decode req.image_base64 with
  | error e => rfl
  | ok bs =>
    dsimp only
    cases hi : env.imageOpen bs with
    | error e => rfl
    | ok img =>
      dsimp only
      rw [h' img]

theorem prompt_set_three_ordered_witness :
    score_handwriting { okEnv with process := okEnv.process } okReq =
      score_handwriting okEnv okReq
  ∧ promptSet okReq.target_text = [okReq.target_text, "خربشة", "فارغ"]
  ∧ (promptSet okReq.target_text).get? 0 = some okReq.target_text :=
  prompt_set_three_ordered okEnv okEnv.process okReq (fun _ => rfl)

/-- Claim C5: when the prompt list has exactly one element, the computed
score is not the (trivially 1) softmax value but the inner product of the
Euclidean-normalized image and text embeddings, scaled by 100. -/
theorem single_prompt_cosine_score (pr : String) (o : ModelOutputs) (l : ℝ)
    (iv tv : List ℝ)
    (h1 : o.logits_per_image = [[l]]) (h2 : o.image_embeds = [iv])
    (h3 : o.text_embeds = [tv]) :
    computeScore [pr] o =
      .ok (dotList (l2normalizeRow iv) (l2normalizeRow tv) * 100)
  ∧ softmaxList [l] = [1] := by
  constructor
  · unfold computeScore
    rw [h1, h2, h3]
    rfl
  · have hv : Real.exp l / (Real.exp l + 0) = 1 := by
      rw [add_zero]
      exact div_self (Real.exp_ne_zero l)
    simp only [softmaxList, List.map_cons, List.map_nil, List.sum_cons, List.sum_nil]
    rw [hv]

theorem single_prompt_cosine_score_witness :
    computeScore ["أ"] cosOutputs =
      .ok (dotList (l2normalizeRow [1, 0]) (l2normalizeRow [0, 1]) * 100)
  ∧ softmaxList [0] = [1] :=
  single_prompt_cosine_score "أ" cosOutputs 0 [1, 0] [0, 1] rfl rfl rfl

/-- Claim C6: every success response's feedback string contains the
currently active model identifier — the one `loadModel` settled on — as a
literal substring. -/
theorem feedback_contains_model_id {P M Img Tens : Type} (hub : Hub P M)
    (mid : String) (p : P) (m : M) (env : ModelEnv Img Tens)
    (req : ScoringRequest) (s : ℝ) (f : String)
    (_hload : loadModel hub = .ok (mid, p, m))
    (hmid : env.modelId = mid)
    (hok : score_handwriting env req = .ok s f) :
    strContains mid f := by
  obtain ⟨o, sc, hcs, hs, hf⟩ :=
    scorePipeline_ok_inv env req s f (score_handwriting_ok_inv env req s f hok)
  rw [hf, ← hmid]
  exact ⟨"Scored using ",
    ". Probability match: " ++ (env.fmtFloat (round2 sc) ++ "%"), rfl⟩

theorem feedback_contains_model_id_witness :
    strContains "Arabic-Clip/araclip" (feedbackString "Arabic-Clip/araclip" "33.33") :=
  feedback_contains_model_id okHub "Arabic-Clip/araclip" () () okEnv okReq
    (round2 okRawScore) (feedbackString "Arabic-Clip/araclip" "33.33") rfl rfl okEnv_run

/-- Claim C7: the handler is deterministic — two requests with the same
image payload and the same target text, served against the same loaded
model environment, produce identical results. -/
theorem handler_deterministic {Img Tens : Type} (env : ModelEnv Img Tens)
    (r1 r2 : ScoringRequest)
    (h1 : r1.image_base64 = r2.image_base64) (h2 : r1.target_text = r2.target_text) :
    score_handwriting env r1 = score_handwriting env r2 := by
  cases r1 with
  | mk a t =>
    cases r2 with
    | mk a' t' =>
      dsimp only at h1 h2
      rw [h1, h2]

theorem handler_deterministic_witness :
    score_handwriting okEnv okReq = score_handwriting okEnv okReq :=
  handler_deterministic okEnv okReq okReq rfl rfl

/-- Claim C8: model loading tries exactly two candidates in order — if the
specialized primary load succeeds it is kept under its identifier; if it
fails for any reason the generic fallback is loaded under a different
fixed identifier; and if the fallback also fails, the error propagates and
startup fails. -/
theorem model_load_two_candidates {P M : Type} (hub : Hub P M) :
    (∀ p m, tryPrimary hub = .ok (p, m) →
      loadModel hub = .ok (primaryModelId, p, m))
  ∧ (∀ e, tryPrimary hub = .error e →
      (∀ p m, tryFallback hub = .ok (p, m) →
        loadModel hub = .ok (fallbackModelId, p, m))
    ∧ (∀ e2, tryFallback hub = .error e2 → loadModel hub = .error e2))
  ∧ primaryModelId ≠ fallbackModelId := by
  refine ⟨?_, ?_, by decide⟩
  · intro p m h
    unfold loadModel
    rw [h]
  · intro e h
    constructor
    · intro p m h2
      unfold loadModel
      rw [h]
      dsimp only
      rw [h2]
    · intro e2 h2
      unfold loadModel
      rw [h]
      dsimp only
      rw [h2]

theorem model_load_two_candidates_witness :
    loadModel fallbackHub = .ok (fallbackModelId, (), ())
  ∧ loadModel deadHub = .error "offline" :=
  ⟨((model_load_two_candidates fallbackHub).2.1 "404 Client Error" rfl).1 () () rfl,
   ((model_load_two_candidates deadHub).2.1 "offline" rfl).2 "offline" rfl⟩

/-- Claim C9 counterexample: base64 decoding does not discard every
character outside the base64 alphabet — a non-ASCII character (here `é`)
is rejected outright, so the decode fails even though the retained
alphabet characters "QQ==" have valid length and padding. -/
theorem b64decode_rejects_non_ascii :
    b64decode "QQ==é" = .error "string argument should contain only ASCII characters"
  ∧ filterKept "QQ==é" = "QQ=="
  ∧ b64decode "QQ==" = .ok [65] :=
  ⟨rfl, rfl, rfl⟩

/-- Claim C9 (amended): for ASCII input, characters outside the base64
alphabet are silently discarded, so the decode depends only on the
retained alphabet-or-padding characters and some syntactically invalid
base64 strings decode successfully; the decode fails only when the input
contains a non-ASCII character or the retained characters have invalid
length or padding. -/
theorem b64decode_lenient_ascii :
    (∀ s : String, (∀ c ∈ s.data, c.toNat < 128) →
      b64decode s = b64decode (filterKept s))
  ∧ (∀ s : String, ∀ e, b64decode s = .error e →
      (∃ c ∈ s.data, 128 ≤ c.toNat) ∨ b64decode (filterKept s) = .error e)
  ∧ b64decode "Q-Q==" = .ok [65]
  ∧ ¬ (∀ c ∈ ("Q-Q==" : String).data, b64Kept c = true) := by
  refine ⟨b64decode_filterKept, ?_, rfl, by decide⟩
  intro s e h
  by_cases ha : ∀ c ∈ s.data, c.toNat < 128
  · right
    rw [← b64decode_filterKept s ha]
    exact h
  · left
    push_neg at ha
    exact ha

theorem b64decode_lenient_ascii_witness :
    b64decode "Q Q==" = b64decode (filterKept "Q Q==") :=
  b64decode_lenient_ascii.1 "Q Q==" (by decide)

/-- Claim C10: on the three-prompt softmax path the unrounded score is
strictly between 0 and 100 in exact arithmetic, because the softmax gives
every prompt nonzero probability; exact 0 or 100 can only come from the
final rounding. -/
theorem unrounded_score_strict_bounds (t : String) (o : ModelOutputs) (a b c : ℝ)
    (h : o.logits_per_image = [[a, b, c]]) :
    computeScore (promptSet t) o =
      .ok (Real.exp a / (Real.exp a + Real.exp b + Real.exp c) * 100)
  ∧ 0 < Real.exp a / (Real.exp a + Real.exp b + Real.exp c) * 100
  ∧ Real.exp a / (Real.exp a + Real.exp b + Real.exp c) * 100 < 100 := by
  have hS : 0 < Real.exp a + Real.exp b + Real.exp c := by positivity
  refine ⟨computeScore_promptSet_logits t o a b c h, by positivity, ?_⟩
  have hlt : Real.exp a < Real.exp a + Real.exp b + Real.exp c := by
    nlinarith [Real.exp_pos b, Real.exp_pos c]
  have hdiv : Real.exp a / (Real.exp a + Real.exp b + Real.exp c) < 1 :=
    (div_lt_one hS).mpr hlt
  linarith

theorem unrounded_score_strict_bounds_witness :
    computeScore (promptSet "أ") okOutputs =
      .ok (Real.exp 0 / (Real.exp 0 + Real.exp 0 + Real.exp 0) * 100)
  ∧ 0 < Real.exp 0 / (Real.exp 0 + Real.exp 0 + Real.exp 0) * 100
  ∧ Real.exp 0 / (Real.exp 0 + Real.exp 0 + Real.exp 0) * 100 < 100 :=
  unrounded_score_strict_bounds "أ" okOutputs 0 0 0 rfl

end Musafir
